import Mathlib

/-!
Shallow embedding of `src/core/lib/engine_asyngular.js`, the per-virtual-user
emit-step executor of the asyngular (pub/sub channel) load engine.

Pure fragments of the JS source become Lean functions.  The stateful
response-correlation loop of the emit step (source lines 209-293) becomes an
explicit step function `corrStep` on a `CorrState`, driven by a list of
`CorrEvent`s: message arrivals on the subscribed channels, interleaved in any
order, plus the firing of the response timeout.  Each per-channel
`for await ... of socketio.receiver(channel)` loop consumes messages of its
channel in arrival order, so a run of the whole step is one interleaved event
list processed sequentially.
-/

namespace Asyngular

/-- Message payloads.  The engine inspects payloads only through `deep-equal`
and `JSON.stringify`, so payloads are modelled as opaque atoms with decidable
equality, and `stringify` as the identity on the atom. -/
abbrev JData := String

/-- `JSON.stringify(data)`, used to build `fauxResponse.body` (line 72). -/
def stringify (d : JData) : String := d

/-- `deepEqual(data, response.data)` (line 58). -/
def deepEqual (a b : JData) : Bool := a == b

/-- One entry of `result.matches` as returned by the capture/match facility
(lines 83-101). -/
structure MatchResult where
  success : Bool
  expected : String
  got : String
  expression : String
deriving DecidableEq, Repr

/-- Outcome of one call of `engineUtil.captureOrMatch`.  Modelled from the
spec: the capture/match facility lives in `engine_util`, outside `src/`, and
is specified only at its interface boundary — it either fails to run, or
returns captured key/value pairs plus a list of match assertion results,
without touching the context. -/
inductive ComOutcome where
  | comErr (e : String)
  | comOk (captures : List (String × JData)) (asserts : List MatchResult)
deriving DecidableEq, Repr

/-- `context` as read and written by this engine: `context.vars` (a JS object,
modelled as an association list) and `context._successCount`. -/
structure Context where
  vars : List (String × JData)
  successCount : Nat
deriving DecidableEq, Repr

/-- JS object property write `obj[k] = v` on an association list. -/
def setAssoc {α : Type} : List (String × α) → String → α → List (String × α)
  | [], k, v => [(k, v)]
  | (k1, v1) :: rest, k, v =>
      if k1 = k then (k, v) :: rest else (k1, v1) :: setAssoc rest k v

/-- JS object property read `obj[k]` on an association list. -/
def getAssoc {α : Type} : List (String × α) → String → Option α
  | [], _ => none
  | (k1, v1) :: rest, k => if k1 = k then some v1 else getAssoc rest k

/-- Events emitted on the engine event emitter `ee`: `request` (line 153),
`error` (several places), the latency `response` notification of
`markEndTime` (line 44), and `match` (line 96). -/
inductive Event where
  | request
  | errorEv (msg : String)
  | responseEv
  | matchEv (success : Bool) (expected : String) (got : String) (expression : String)
deriving DecidableEq, Repr

/-- One expected response.  `capture` and `match` bodies are opaque to this
engine — only their presence is tested (line 67) before they are handed to the
external capture/match facility — so they are carried as opaque atoms.  The JS
field `match` is a Lean keyword and is called `matchRule` here. -/
structure ResponseSpec where
  channel : Option String
  data : Option JData
  capture : Option String
  matchRule : Option String
deriving DecidableEq, Repr

/-- The `beforeResponse` processor hook (line 249): it receives the incoming
message, the expected response spec the source hands it, and the context.
The `requestSpec` and `ee` arguments of the JS hook carry no data the engine
later inspects and are dropped. -/
abbrev Hook := JData → Option ResponseSpec → Context → Bool

/-- The captureOrMatch call as a function of the response spec, the faux
response body and the context. -/
abbrev ComFn := ResponseSpec → String → Context → ComOutcome

/-- Result of `processResponse` (lines 55-117): the events emitted on `ee`,
the (possibly updated) context, and the error value handed to its callback. -/
structure PRResult where
  events : List Event
  ctx : Context
  err : Option String
deriving DecidableEq, Repr

/-- `failedMatches` (lines 83-85). -/
def failedMatches (ms : List MatchResult) : List MatchResult :=
  ms.filter (fun v => !v.success)

/-- `processResponse(ee, data, response, context, callback)` (lines 55-117),
with the external `engineUtil.captureOrMatch` call abstracted as `com`. -/
def processResponse (com : ComFn) (data : JData) (response : ResponseSpec)
    (ctx : Context) : PRResult :=
  if (match response.data with
      | some d => !(deepEqual data d)
      | none => false) then
    { events := [Event.errorEv "data is not valid"], ctx := ctx,
      err := some "data is not valid" }
  else if response.capture = none ∧ response.matchRule = none then
    { events := [], ctx := ctx, err := none }
  else
    let body := stringify data
    match com response body ctx with
    | ComOutcome.comErr e =>
        { events := [Event.errorEv e], ctx := ctx, err := some e }
    | ComOutcome.comOk captures ms =>
        if failedMatches ms ≠ [] then
          { events := [Event.errorEv "Failed match"], ctx := ctx,
            err := some "Failed match" }
        else
          { events := ms.map (fun v =>
              Event.matchEv v.success v.expected v.got v.expression),
            ctx := { vars := setAssoc
                       (captures.foldl (fun vs kv => setAssoc vs kv.1 kv.2) ctx.vars)
                       "$" body,
                     successCount := ctx.successCount + 1 },
            err := none }

/-- `_.groupBy(requiredResponses, 'channel')` key: the channel property of the
raw spec, the JS string "undefined" when absent. -/
def channelKey (r : ResponseSpec) : String := r.channel.getD "undefined"

def insertGrouped (gs : List (String × List ResponseSpec)) (k : String)
    (r : ResponseSpec) : List (String × List ResponseSpec) :=
  match gs with
  | [] => [(k, [r])]
  | (k1, rs) :: rest =>
      if k1 = k then (k1, rs ++ [r]) :: rest else (k1, rs) :: insertGrouped rest k r

/-- `_.groupBy(requiredResponses, 'channel')` (line 216): groups the expected
responses by channel, preserving first-appearance order of the channels and
declaration order within each channel. -/
def groupByChannel (rs : List ResponseSpec) : List (String × List ResponseSpec) :=
  rs.foldl (fun gs r => insertGrouped gs (channelKey r) r) []

/-- Static data of one emit-with-response step: the channel grouping
(`channelsResponses`, line 216), the resolved `beforeResponse` hook if
configured, and the abstracted captureOrMatch facility. -/
structure CorrConfig where
  channelsResponses : List (String × List ResponseSpec)
  hook : Option Hook
  com : ComFn

/-- `requiredResponsesCountsByChannel[channel]` (lines 220-227). -/
def requiredResponsesCountsByChannel (cfg : CorrConfig) (ch : String) : Nat :=
  match getAssoc cfg.channelsResponses ch with
  | some rs => rs.length
  | none => 0

/-- `requiredResponsesCount` (lines 218, 228). -/
def requiredResponsesCount (cfg : CorrConfig) : Nat :=
  (cfg.channelsResponses.map (fun g => g.2.length)).sum

/-- Mutable state of one emit-with-response step.  `indexByChannel` holds the
per-group `index` variable (line 222, started at -1); `currentResponsesCount`
is the global received counter (line 219); `closed` records the channels on
which `socketio.closeReceiver` was called; `calls` records every invocation of
the step completion callback, in order, with its error argument.  `hookTrace`
(the arguments each beforeResponse invocation received), `validated` (how many
messages passed validation, i.e. reached the processResponse callback with no
error) and `crashed` (a read of `responses[index]` out of bounds, a TypeError
in JS) are specification ghosts, not source variables. -/
structure CorrState where
  indexByChannel : List (String × Int)
  currentResponsesCount : Nat
  closed : List String
  calls : List (Option String)
  events : List Event
  ctx : Context
  hookTrace : List (JData × Option ResponseSpec)
  validated : Nat
  crashed : Bool
deriving DecidableEq, Repr

def initCorrState (ctx : Context) : CorrState :=
  { indexByChannel := [], currentResponsesCount := 0, closed := [], calls := [],
    events := [], ctx := ctx, hookTrace := [], validated := 0, crashed := false }

/-- The current value of the per-channel `index` variable, -1 before any
message was accepted on the channel. -/
def indexOfChannel (s : CorrState) (ch : String) : Int :=
  (getAssoc s.indexByChannel ch).getD (-1)

/-- `socketio.closeReceiver(channel)`: idempotent close. -/
def closeReceiver (closed : List String) (ch : String) : List String :=
  if ch ∈ closed then closed else closed ++ [ch]

/-- Events driving one emit-with-response step: a message arriving on a
channel, or the `responseTimeout` timer firing. -/
inductive CorrEvent where
  | msg (ch : String) (d : JData)
  | timeout
deriving DecidableEq, Repr

/-- Lines 254-276: the body run for a message that passed the beforeResponse
gate.  `index++`, `currentResponsesCount++`, then `processResponse` on
`responses[index]`, whose callback records latency on success (line 260),
closes the receiver when the channel is exhausted or on error (lines 263-265),
and invokes the step callback when the global count is reached or on error
(lines 269-274). -/
def handleMessage (cfg : CorrConfig) (s : CorrState) (ch : String)
    (specs : List ResponseSpec) (d : JData) : CorrState :=
  let i : Int := indexOfChannel s ch + 1
  let s1 := { s with indexByChannel := setAssoc s.indexByChannel ch i,
                     currentResponsesCount := s.currentResponsesCount + 1 }
  match specs[i.toNat]? with
  | none => { s1 with crashed := true }
  | some spec =>
      let pr := processResponse cfg.com d spec s1.ctx
      let latency : List Event := if pr.err = none then [Event.responseEv] else []
      let closed1 :=
        if ((requiredResponsesCountsByChannel cfg ch : Int) - 1 == i) || pr.err.isSome
        then closeReceiver s1.closed ch else s1.closed
      let terminal :=
        (requiredResponsesCount cfg == s1.currentResponsesCount) || pr.err.isSome
      { s1 with
        ctx := pr.ctx,
        events := s1.events ++ pr.events ++ latency,
        closed := if terminal then closeReceiver closed1 ch else closed1,
        calls := if terminal then s1.calls ++ [pr.err] else s1.calls,
        validated := s1.validated + (if pr.err = none then 1 else 0) }

/-- One event of the correlation protocol (lines 239-293).  A message on a
channel with no group has no open listener and is dropped; a message on a
closed channel is dropped because its `for await` loop has ended.  Otherwise
the beforeResponse hook is consulted with `responses[index]` at the
pre-increment index (line 249); a falsy hook result skips the message without
advancing anything (line 254).  The `responseTimeout` timer (lines 286-293)
invokes the step callback with a timeout error iff the global received count
differs from the required count. -/
def corrStep (cfg : CorrConfig) (s : CorrState) (e : CorrEvent) : CorrState :=
  match e with
  | CorrEvent.timeout =>
      if requiredResponsesCount cfg ≠ s.currentResponsesCount then
        { s with events := s.events ++ [Event.errorEv "response timeout"],
                 calls := s.calls ++ [some "response timeout"] }
      else s
  | CorrEvent.msg ch d =>
      match getAssoc cfg.channelsResponses ch with
      | none => s
      | some specs =>
          if ch ∈ s.closed then s
          else
            match cfg.hook with
            | none => handleMessage cfg s ch specs d
            | some h =>
                let i := indexOfChannel s ch
                let hookArg : Option ResponseSpec :=
                  if i < 0 then none else specs[i.toNat]?
                let s0 := { s with hookTrace := s.hookTrace ++ [(d, hookArg)] }
                if h d hookArg s.ctx then handleMessage cfg s0 ch specs d else s0

/-- A whole run of one emit-with-response step over an interleaved event
list. -/
def corrRun (cfg : CorrConfig) (s : CorrState) (evs : List CorrEvent) : CorrState :=
  evs.foldl (corrStep cfg) s

/-- Scenario-level configuration read by the emit step: `config.timeout`
(line 284), in seconds; `none` models an absent field and `some 0` the other
falsy value a count can take. -/
structure EngineConfig where
  timeout : Option Nat
deriving DecidableEq, Repr

/-- Lines 284-285: `waitTime = self.config.timeout || 10; waitTime *= 1000`. -/
def responseWaitTimeMs (cfgTimeout : Option Nat) : Nat :=
  (match cfgTimeout with
   | some t => if t = 0 then 10 else t
   | none => 10) * 1000

/-- The emit part of a step spec, as consumed by `f` (lines 144-297):
`requestSpec.emit.channel`, `requestSpec.emit.data` and the normalized
`requestSpec.emit.response` list.  `timeoutOverride` is modelled from the
spec: its data model gives emit steps a per-step timeout override field; the
source never reads any such field, and it is carried here only so that the
claimed timeout computation can be stated against the one of the source. -/
structure EmitSpec where
  channel : Option String
  data : JData
  response : List ResponseSpec
  timeoutOverride : Option Nat
deriving DecidableEq, Repr

/-- Truthiness of `requestSpec.emit.channel` (line 157): present and not the
empty string. -/
def hasChannel (spec : EmitSpec) : Bool :=
  match spec.channel with
  | some c => !(c == "")
  | none => false

/-- Observable outcome of running `f` on a response-required emit step:
events emitted before the correlator ran, whether the outgoing message was
transmitted, the armed timeout duration in milliseconds (`none` when no timer
was armed), and the final correlation state. -/
structure StepResult where
  events : List Event
  transmitted : Bool
  armedMs : Option Nat
  final : CorrState
deriving DecidableEq, Repr

/-- The function `f` (lines 144-297) for a response-required emit step:
emit the `request` event (line 153); if the spec has no truthy channel or no
channel client is stored for the namespace, emit the invalid-arguments error
and return — the step callback is never invoked and nothing is transmitted
(lines 157-159).  Otherwise group the expected responses, open the listeners,
transmit, arm the timeout, and let the correlator consume the events. -/
def runEmitStep (ec : EngineConfig) (spec : EmitSpec) (hook : Option Hook)
    (com : ComFn) (hasSocket : Bool) (ctx : Context)
    (evs : List CorrEvent) : StepResult :=
  if hasChannel spec && hasSocket then
    let cfg : CorrConfig :=
      { channelsResponses := groupByChannel spec.response, hook := hook, com := com }
    let s := corrRun cfg (initCorrState ctx) evs
    { events := Event.request :: s.events, transmitted := true,
      armedMs := some (responseWaitTimeMs ec.timeout), final := s }
  else
    { events := [Event.request, Event.errorEv "invalid arguments"],
      transmitted := false, armedMs := none, final := initCorrState ctx }

/-- Modelled from the spec, for comparison with `responseWaitTimeMs`: the
armed timeout duration as claim C8 states it — the step-level override when
present, else the scenario config timeout, defaulting to 10, in seconds,
times 1000. -/
def claimedWaitTimeMs (stepOverride cfgTimeout : Option Nat) : Nat :=
  ((stepOverride.orElse (fun _ => cfgTimeout)).getD 10) * 1000

/-- A notification from a freshly created channel client: the `connect` and
`error` listener streams of lines 339-353, interleaved in arrival order. -/
inductive SockNote where
  | connect
  | errorNote (e : String)
deriving DecidableEq, Repr

/-- Observable outcome of `loadContextSocket`: the invocations of its `cb`
(with their error argument) and what was written to the console. -/
structure LoadResult where
  cbCalls : List (Option String)
  consoleLog : List String
deriving DecidableEq, Repr

/-- `loadContextSocket(namespace, context, cb)` (lines 321-361).  `existing`
says whether `context.sockets[namespace]` is already present (then `cb` is
called back immediately, line 359).  Otherwise a client is created and two
listener loops run: every `error` notification is written to the console
(line 341) and every `connect` notification invokes `cb(null, socket)`
(line 350). -/
def loadContextSocket (existing : Bool) (notes : List SockNote) : LoadResult :=
  if existing then { cbCalls := [none], consoleLog := [] }
  else
    { cbCalls := notes.filterMap (fun n =>
        match n with
        | SockNote.connect => some none
        | SockNote.errorNote _ => none),
      consoleLog := notes.filterMap (fun n =>
        match n with
        | SockNote.connect => none
        | SockNote.errorNote e => some e) }

/-- Number of latency `response` notifications in an event list. -/
def countResponses : List Event → Nat
  | [] => 0
  | Event.responseEv :: rest => countResponses rest + 1
  | _ :: rest => countResponses rest

/-- A captureOrMatch function for concrete runs: always succeeds with no
captures and no assertions.  No concrete spec below declares capture or match
rules, so it is never consulted. -/
def comDefault : ComFn := fun _ _ _ => ComOutcome.comOk [] []

def ctx0 : Context := { vars := [], successCount := 0 }

def engCfg0 : EngineConfig := { timeout := none }

/-- An expected response with an exact-data expectation and no capture or
match rules. -/
def rspecData (ch : String) (d : JData) : ResponseSpec :=
  { channel := some ch, data := some d, capture := none, matchRule := none }

/-- An expected response with no checks at all. -/
def rspecAny (ch : String) : ResponseSpec :=
  { channel := some ch, data := none, capture := none, matchRule := none }

/-- Claim C1 scenario: one channel with two expected responses, both with an
exact-data expectation. -/
def c1cfg : CorrConfig :=
  { channelsResponses := groupByChannel [rspecData "a" "ok", rspecData "a" "ok"],
    hook := none, com := comDefault }

/-- Claims C2 and C3 scenario: channel a expects one message with exact data
x, channel b expects one message with no checks. -/
def twoChannelCfg : CorrConfig :=
  { channelsResponses := groupByChannel [rspecData "a" "x", rspecAny "b"],
    hook := none, com := comDefault }

/-- Claim C6 scenario: one channel with two expected responses and an
always-true beforeResponse hook. -/
def c6cfg : CorrConfig :=
  { channelsResponses := groupByChannel [rspecData "a" "m0", rspecData "a" "m1"],
    hook := some (fun _ _ _ => true), com := comDefault }

/-- Claim C7 success scenario: one channel with two expected responses and no
checks. -/
def c7cfg : CorrConfig :=
  { channelsResponses := groupByChannel [rspecAny "a", rspecAny "a"],
    hook := none, com := comDefault }

/-- Claim C7 failure scenario: one channel with one expected response with an
exact-data expectation. -/
def c7failCfg : CorrConfig :=
  { channelsResponses := groupByChannel [rspecData "a" "ok"],
    hook := none, com := comDefault }

/-- Claim C8 scenario: an emit spec carrying a step-level timeout override of
5 seconds. -/
def c8spec : EmitSpec :=
  { channel := some "c", data := "d", response := [rspecAny "r"],
    timeoutOverride := some 5 }

/-- Claim C4 scenario: an emit spec with no channel. -/
def c4spec : EmitSpec :=
  { channel := none, data := "d", response := [rspecAny "a"],
    timeoutOverride := none }

theorem countResponses_append (a b : List Event) :
    countResponses (a ++ b) = countResponses a + countResponses b := by
  induction a with
  | nil => simp [countResponses]
  | cons x rest ih => cases x <;> simp [countResponses, ih, Nat.add_right_comm]

theorem countResponses_map_matchEv (ms : List MatchResult) :
    countResponses (ms.map (fun v =>
      Event.matchEv v.success v.expected v.got v.expression)) = 0 := by
  induction ms with
  | nil => rfl
  | cons m rest ih => simpa [countResponses] using ih

theorem countResponses_processResponse (com : ComFn) (d : JData)
    (resp : ResponseSpec) (ctx : Context) :
    countResponses (processResponse com d resp ctx).events = 0 := by
  unfold processResponse
  split
  · rfl
  · split
    · rfl
    · dsimp only
      split
      · rfl
      · split
        · rfl
        · exact countResponses_map_matchEv _

theorem handleMessage_countResponses (cfg : CorrConfig) (s : CorrState)
    (ch : String) (specs : List ResponseSpec) (d : JData)
    (h : countResponses s.events = s.validated) :
    countResponses (handleMessage cfg s ch specs d).events
      = (handleMessage cfg s ch specs d).validated := by
  unfold handleMessage
  dsimp only
  split
  · simpa using h
  · next spec heq =>
      by_cases he : (processResponse cfg.com d spec s.ctx).err = none
      · simp [he, countResponses_append, countResponses_processResponse,
              countResponses, h]
      · simp [he, countResponses_append, countResponses_processResponse,
              countResponses, h]

theorem corrStep_countResponses (cfg : CorrConfig) (s : CorrState) (e : CorrEvent)
    (h : countResponses s.events = s.validated) :
    countResponses (corrStep cfg s e).events = (corrStep cfg s e).validated := by
  cases e with
  | timeout =>
      unfold corrStep
      dsimp only
      split
      · simpa [countResponses_append, countResponses] using h
      · exact h
  | msg ch d =>
      unfold corrStep
      dsimp only
      split
      · exact h
      · split
        · exact h
        · split
          · exact handleMessage_countResponses _ _ _ _ _ h
          · split <;> split
            · exact handleMessage_countResponses _ _ _ _ _ (by simpa using h)
            · simpa using h
            · exact handleMessage_countResponses _ _ _ _ _ (by simpa using h)
            · simpa using h

theorem corrRun_countResponses (cfg : CorrConfig) (evs : List CorrEvent) :
    ∀ s : CorrState, countResponses s.events = s.validated →
      countResponses (corrRun cfg s evs).events = (corrRun cfg s evs).validated := by
  induction evs with
  | nil => intro s h; exact h
  | cons e rest ih =>
      intro s h
      exact ih (corrStep cfg s e) (corrStep_countResponses cfg s e h)

theorem getAssoc_setAssoc_self {α : Type} (vs : List (String × α))
    (k : String) (v : α) :
    getAssoc (setAssoc vs k v) k = some v := by
  induction vs with
  | nil => simp [setAssoc, getAssoc]
  | cons p rest ih =>
      obtain ⟨k1, v1⟩ := p
      by_cases hk : k1 = k
      · simp [setAssoc, getAssoc, hk]
      · simp [setAssoc, getAssoc, hk, ih]

theorem processResponse_ctx_or_ok (com : ComFn) (d : JData)
    (resp : ResponseSpec) (ctx : Context) :
    (processResponse com d resp ctx).ctx = ctx
      ∨ (processResponse com d resp ctx).err = none := by
  unfold processResponse
  split
  · exact Or.inl rfl
  · split
    · exact Or.inr rfl
    · dsimp only
      split
      · exact Or.inl rfl
      · split
        · exact Or.inl rfl
        · exact Or.inr rfl

theorem processResponse_cases (com : ComFn) (d : JData)
    (resp : ResponseSpec) (ctx : Context) :
    (processResponse com d resp ctx).ctx = ctx
    ∨ ((resp.capture ≠ none ∨ resp.matchRule ≠ none)
        ∧ (processResponse com d resp ctx).err = none
        ∧ (processResponse com d resp ctx).ctx.successCount = ctx.successCount + 1
        ∧ getAssoc (processResponse com d resp ctx).ctx.vars "$"
            = some (stringify d)) := by
  unfold processResponse
  split
  · exact Or.inl rfl
  · next hcm1 =>
    split
    · exact Or.inl rfl
    · next hcm =>
      dsimp only
      split
      · exact Or.inl rfl
      · split
        · exact Or.inl rfl
        · exact Or.inr ⟨not_and_or.mp hcm, rfl, rfl, getAssoc_setAssoc_self _ _ _⟩

/-- Claim C1, code bug witness: the source has no single-fire guard.  With two
required responses on one channel, a first message failing the exact-data
check invokes the step completion callback with the validation error, and the
response timeout — armed for the same step and not disarmed by the failure —
invokes it a second time. -/
theorem c1_callback_invoked_twice :
    (corrRun c1cfg (initCorrState ctx0)
        [CorrEvent.msg "a" "bad", CorrEvent.timeout]).calls
      = [some "data is not valid", some "response timeout"] := by decide

/-- Claim C2, code bug witness: the global received counter counts every
message that passes the beforeResponse gate, validated or not, and after a
validation failure on channel a the listener of channel b keeps running — so
the step is declared successful (a callback invocation carrying no error)
although only one of the two required messages ever validated. -/
theorem c2_success_declared_without_all_validated :
    (corrRun twoChannelCfg (initCorrState ctx0)
        [CorrEvent.msg "a" "y", CorrEvent.msg "b" "z"]).calls
      = [some "data is not valid", none]
    ∧ (corrRun twoChannelCfg (initCorrState ctx0)
        [CorrEvent.msg "a" "y", CorrEvent.msg "b" "z"]).validated = 1
    ∧ requiredResponsesCount twoChannelCfg = 2 := by decide

/-- Claim C3, code bug witness: on a validation failure only the listener of
the failing channel is closed — after the failure on channel a, channel b is
not in the closed set, and a later message on b is still consumed: the global
received counter advances to 2. -/
theorem c3_sibling_listener_left_open :
    (corrRun twoChannelCfg (initCorrState ctx0) [CorrEvent.msg "a" "y"]).closed
      = ["a"]
    ∧ (corrRun twoChannelCfg (initCorrState ctx0)
        [CorrEvent.msg "a" "y", CorrEvent.msg "b" "z"]).currentResponsesCount
      = 2 := by decide

/-- Claim C4, code bug witness: with no channel in the emit spec the step
emits the request event and the invalid-arguments error notification and
transmits nothing, but the completion callback is never invoked, so the
scenario chain stalls instead of short-circuiting on the returned error. -/
theorem c4_invalid_arguments_no_callback :
    (runEmitStep engCfg0 c4spec none comDefault true ctx0 []).events
      = [Event.request, Event.errorEv "invalid arguments"]
    ∧ (runEmitStep engCfg0 c4spec none comDefault true ctx0 []).transmitted = false
    ∧ (runEmitStep engCfg0 c4spec none comDefault true ctx0 []).final.calls = [] := by
  decide

/-- Claim C5, code bug witness: a connection-level error notification from a
freshly created channel client is only written to the console; the callback of
loadContextSocket is never invoked, so the suspended caller is not resumed and
the connection error never reaches the step callback. -/
theorem c5_connection_error_never_resumes :
    loadContextSocket false [SockNote.errorNote "boom"]
      = { cbCalls := [], consoleLog := ["boom"] } := by decide

/-- Claim C6, code bug witness: the beforeResponse hook receives the expected
response spec at the pre-increment index — none (JS undefined) for the first
message of a channel, then the previously matched spec — while the message is
validated against the next spec, as shown by both messages validating: the
first against the spec expecting m0 and the second against the spec expecting
m1. -/
theorem c6_hook_receives_previous_spec :
    (corrRun c6cfg (initCorrState ctx0)
        [CorrEvent.msg "a" "m0", CorrEvent.msg "a" "m1"]).hookTrace
      = [("m0", none), ("m1", some (rspecData "a" "m0"))]
    ∧ (corrRun c6cfg (initCorrState ctx0)
        [CorrEvent.msg "a" "m0", CorrEvent.msg "a" "m1"]).validated = 2 := by decide

/-- Claim C7, counterexample: after the first of two required valid messages
the step is not yet complete (no callback invocation) yet a latency response
notification was already emitted; and a run ending in a validation failure has
a completion callback invocation but no latency notification at all. -/
theorem c7_latency_counterexample :
    ((corrRun c7cfg (initCorrState ctx0) [CorrEvent.msg "a" "z"]).calls = []
      ∧ countResponses
          (corrRun c7cfg (initCorrState ctx0) [CorrEvent.msg "a" "z"]).events = 1)
    ∧ ((corrRun c7failCfg (initCorrState ctx0) [CorrEvent.msg "a" "bad"]).calls
        = [some "data is not valid"]
      ∧ countResponses
          (corrRun c7failCfg (initCorrState ctx0) [CorrEvent.msg "a" "bad"]).events
        = 0) := by decide

/-- Claim C7 (amended): a latency response notification is emitted once per
message that passes validation — hence also before the step completes when
several responses are required — and never on a validation failure or on the
response timeout: over any run, the number of latency notifications equals the
number of validated messages. -/
theorem c7_latency_per_validated_message (cfg : CorrConfig) (ctx : Context)
    (evs : List CorrEvent) :
    countResponses (corrRun cfg (initCorrState ctx) evs).events
      = (corrRun cfg (initCorrState ctx) evs).validated :=
  corrRun_countResponses cfg evs (initCorrState ctx) rfl

/-- Witness for the amended claim C7 at a concrete run. -/
theorem c7_latency_witness :
    countResponses (corrRun c7cfg (initCorrState ctx0)
        [CorrEvent.msg "a" "z", CorrEvent.timeout]).events
      = (corrRun c7cfg (initCorrState ctx0)
        [CorrEvent.msg "a" "z", CorrEvent.timeout]).validated :=
  c7_latency_per_validated_message c7cfg ctx0 [CorrEvent.msg "a" "z", CorrEvent.timeout]

/-- Claim C8, counterexample: with a step-level timeout override of 5 seconds
and a scenario config timeout of 2 seconds the source arms 2000 milliseconds,
while the computation the claim describes yields 5000 — the override is never
read. -/
theorem c8_override_counterexample :
    (runEmitStep { timeout := some 2 } c8spec none comDefault true ctx0 []).armedMs
      = some 2000
    ∧ claimedWaitTimeMs c8spec.timeoutOverride (some 2) = 5000 := by decide

/-- Claim C8 (amended): the armed timeout duration is always the scenario
config timeout — defaulting to 10 when the field is absent or zero — in
seconds converted to milliseconds by multiplying by 1000; a step-level
override never influences it. -/
theorem c8_timeout_ignores_override :
    (∀ (ec : EngineConfig) (spec : EmitSpec) (o : Option Nat) (hook : Option Hook)
        (com : ComFn) (hs : Bool) (ctx : Context) (evs : List CorrEvent),
        (runEmitStep ec spec hook com hs ctx evs).armedMs
          = (runEmitStep ec { spec with timeoutOverride := o } hook com hs ctx evs).armedMs)
    ∧ (∀ n : Nat, n ≠ 0 → responseWaitTimeMs (some n) = n * 1000)
    ∧ responseWaitTimeMs none = 10000
    ∧ responseWaitTimeMs (some 0) = 10000 := by
  refine ⟨?_, ?_, rfl, rfl⟩
  · intro ec spec o hook com hs ctx evs
    have hch : hasChannel { spec with timeoutOverride := o } = hasChannel spec := by
      cases spec; rfl
    cases hcb : hasChannel spec && hs with
    | false => simp [runEmitStep, hch, hcb]
    | true => simp [runEmitStep, hch, hcb]
  · intro n hn
    simp [responseWaitTimeMs, hn]

/-- Witness for the amended claim C8 at a concrete config. -/
theorem c8_timeout_witness :
    (3 : Nat) ≠ 0 ∧ responseWaitTimeMs (some 3) = 3 * 1000 :=
  ⟨by decide, c8_timeout_ignores_override.2.1 3 (by decide)⟩

/-- Claim C9: validation mutates the context only after the message has
passed validation — whenever processResponse hands its callback an error (an
exact-data mismatch, a captureOrMatch invocation error, or a failed match
assertion), the context, vars included, is returned entirely unchanged, with
no partial merge of captured values. -/
theorem c9_failed_validation_leaves_context (com : ComFn) (d : JData)
    (resp : ResponseSpec) (ctx : Context) (e : String)
    (h : (processResponse com d resp ctx).err = some e) :
    (processResponse com d resp ctx).ctx = ctx := by
  rcases processResponse_ctx_or_ok com d resp ctx with hc | hok
  · exact hc
  · rw [hok] at h; cases h

/-- Witness for C9 at a concrete failing input: an exact-data mismatch. -/
theorem c9_failed_validation_witness :
    (processResponse comDefault "x" (rspecData "a" "y") ctx0).err
      = some "data is not valid"
    ∧ (processResponse comDefault "x" (rspecData "a" "y") ctx0).ctx = ctx0 :=
  ⟨by decide,
   c9_failed_validation_leaves_context comDefault "x" (rspecData "a" "y") ctx0
     "data is not valid" (by decide)⟩

/-- Claim C10: when processResponse runs on a response spec with neither
capture nor match rules — including one whose only check is an exact-data
expectation — the context, vars and successCount included, is unchanged, and
it succeeds exactly when the exact-data expectation is absent or holds;
conversely any context mutation happens only on the capture/match success
path, where the successCount is incremented and the dollar variable is set to
the stringified message. -/
theorem c10_no_capture_match_success :
    (∀ (com : ComFn) (d : JData) (resp : ResponseSpec) (ctx : Context),
        resp.capture = none → resp.matchRule = none →
          (processResponse com d resp ctx).ctx = ctx
          ∧ ((processResponse com d resp ctx).err = none
               ↔ (resp.data = none ∨ resp.data = some d)))
    ∧ (∀ (com : ComFn) (d : JData) (resp : ResponseSpec) (ctx : Context),
        (processResponse com d resp ctx).ctx ≠ ctx →
          (resp.capture ≠ none ∨ resp.matchRule ≠ none)
          ∧ (processResponse com d resp ctx).err = none
          ∧ (processResponse com d resp ctx).ctx.successCount = ctx.successCount + 1
          ∧ getAssoc (processResponse com d resp ctx).ctx.vars "$"
              = some (stringify d)) := by
  constructor
  · intro com d resp ctx h1 h2
    cases hd : resp.data with
    | none => simp [processResponse, hd, h1, h2]
    | some dd =>
        by_cases hq : d = dd
        · simp [processResponse, deepEqual, hd, h1, h2, hq]
        · simp [processResponse, deepEqual, hd, h1, h2, hq]
          exact fun hdd => hq hdd.symm
  · intro com d resp ctx hc
    rcases processResponse_cases com d resp ctx with h | h
    · exact absurd h hc
    · exact h

/-- Witness for C10 at a concrete input with no capture or match rules. -/
theorem c10_witness :
    ((rspecAny "a").capture = none ∧ (rspecAny "a").matchRule = none)
    ∧ (processResponse comDefault "d" (rspecAny "a") ctx0).ctx = ctx0 :=
  ⟨⟨rfl, rfl⟩,
   (c10_no_capture_match_success.1 comDefault "d" (rspecAny "a") ctx0 rfl rfl).1⟩

end Asyngular
